import Mathlib

/-!
Verification development for the MyKaasu money manager frontend.

The definitions below are a shallow embedding of the TypeScript source:
  * src/frontend/src/components/Dashboard.tsx  (balance aggregation)
  * src/frontend/src/components/ImportPage.tsx (import review workflow)

JavaScript numbers are modelled as rationals; the JavaScript logical-or
operator on numbers and strings is modelled explicitly, since `x || y`
falls through on `0`, `NaN` and the empty string, not only on
`undefined`.  Optional fields of TypeScript interfaces become `Option`.
-/

namespace MyKaasu

/-- JavaScript `a || b` on numbers: `0` is falsy, so a zero left operand
falls through to `b`. -/
def jsOrQ (a b : ℚ) : ℚ :=
  if a = 0 then b else a

/-- JavaScript `a || b` where the left operand may be `undefined`
(an absent optional field). -/
def jsOrOptQ (a : Option ℚ) (b : ℚ) : ℚ :=
  match a with
  | none => b
  | some v => jsOrQ v b

/-- JavaScript `a || b` on strings: the empty string is falsy. -/
def jsOrS (a b : String) : String :=
  if a = "" then b else a

/-- JavaScript `a || b` on an optional string. -/
def jsOrOptS (a : Option String) (b : String) : String :=
  match a with
  | none => b
  | some v => jsOrS v b

namespace Dashboard

/-- The `Expense` interface of Dashboard.tsx. -/
structure Expense where
  id : String
  description : String
  amount : ℚ
  currency : String
  date : String
  category : Option String
  expense_type : Option String
  expense_title : Option String
  net_balance : Option ℚ
  total_expense : Option ℚ
  owed_share : Option ℚ
  group_id : Option String
  group_name : Option String
deriving DecidableEq

/-- The `Income` interface of Dashboard.tsx. -/
structure Income where
  id : String
  description : String
  amount : ℚ
  currency : String
  date : String
  category : Option String
  source : Option String
deriving DecidableEq

/-- Dashboard.tsx line 417:
`income.reduce((sum, i) => sum + (i.amount || 0), 0)`. -/
def totalIncome (income : List Income) : ℚ :=
  income.foldl (fun sum i => sum + jsOrQ i.amount 0) 0

/-- Dashboard.tsx line 418:
`expenses.reduce((sum, e) => sum + (e.owed_share || 0), 0)`. -/
def youOwe (expenses : List Expense) : ℚ :=
  expenses.foldl (fun sum e => sum + jsOrOptQ e.owed_share 0) 0

/-- Dashboard.tsx line 419: `totalIncome - youOwe`. -/
def netBalance (income : List Income) (expenses : List Expense) : ℚ :=
  totalIncome income - youOwe expenses

/-- Total owed in the words of the specification (section 4.4):
`sum(expenses.owed_share ?? expenses.amount)`, i.e. each expense
contributes its `owed_share` when present and its `amount` when the
`owed_share` field is absent.  Stated from the spec text for comparison
with `youOwe`, which is the definition taken from the source. -/
def specTotalOwed (expenses : List Expense) : ℚ :=
  (expenses.map (fun e => e.owed_share.getD e.amount)).sum

end Dashboard

namespace ImportPage

/-- The `Group` interface of ImportPage.tsx. -/
structure Group where
  id : String
  name : String
  description : Option String
  color : Option String
deriving DecidableEq

/-- The `ImportedExpense` interface of ImportPage.tsx, together with the
fields the component reads through `as any` casts (`group_id`,
`paid_share`) and the `already_imported` flag carried by the raw records
of the `/splitwise/import` response, which `handleImportExpenses`
inspects before storing them in this shape. -/
structure ImportedExpense where
  id : String
  description : String
  amount : ℚ
  currency : String
  date : String
  category : Option String
  expense_type : Option String
  net_balance : Option ℚ
  total_expense : Option ℚ
  owed_share : Option ℚ
  splitwise_id : Option String
  group_id : Option String
  paid_share : Option ℚ
  already_imported : Bool
deriving DecidableEq

/-- The payload posted to `/expenses` by `handleSaveExpense`
(ImportPage.tsx lines 185-197). -/
structure ExpenseData where
  description : String
  amount : ℚ
  currency : String
  date : String
  category : String
  group_id : String
  group_name : String
  expense_type : String
  owed_share : ℚ
  paid_share : ℚ
  splitwise_id : String
deriving DecidableEq

/-- The `expenseData` object literal built inside `handleSaveExpense`
(ImportPage.tsx lines 185-197), field by field:
`amount: editingExpense.owed_share || editingExpense.amount || 0`,
`group_name: groups.find(g => g.id === editingExpense.group_id)?.name || ''`,
`splitwise_id: editingExpense.splitwise_id || editingExpense.id`, etc. -/
def expenseData (groups : List Group) (e : ImportedExpense) : ExpenseData :=
  { description := e.description
    amount := jsOrQ (jsOrOptQ e.owed_share e.amount) 0
    currency := e.currency
    date := e.date
    category := jsOrOptS e.category ""
    group_id := jsOrOptS e.group_id ""
    group_name :=
      jsOrOptS ((groups.find? (fun g => e.group_id == some g.id)).map Group.name) ""
    expense_type := jsOrOptS e.expense_type "borrowed"
    owed_share := jsOrQ (jsOrOptQ e.owed_share e.amount) 0
    paid_share := jsOrOptQ e.paid_share 0
    splitwise_id := jsOrOptS e.splitwise_id e.id }

/-- ImportPage.tsx line 148: on an import response,
`response.data.expenses.filter((e) => !e.already_imported)` is what gets
stored as `importedExpenses` and shown ("Only show expenses that haven't
been imported yet"). -/
def handleImportExpenses (respExpenses : List ImportedExpense) :
    List ImportedExpense :=
  respExpenses.filter (fun e => !e.already_imported)

/-- Case-insensitive substring test on character lists, modelling
`a.toLowerCase().includes(b.toLowerCase())`. -/
def containsSub : List Char → List Char → Bool
  | _, [] => true
  | [], _ :: _ => false
  | a :: as, t => t.isPrefixOf (a :: as) || containsSub as t

/-- The filter-panel state of ImportPage.tsx (empty string = filter off,
matching JavaScript truthiness of the guards in `applyFilters`). -/
structure Filters where
  searchQuery : String
  filterCategory : String
  filterType : String
  filterDateFrom : String
  filterDateTo : String
deriving DecidableEq

/-- The `applyFilters` function of ImportPage.tsx (lines 101-127).  The
calendar-date comparison `new Date(x) >= new Date(y)` is abstracted as a
relation `dateLe` on date strings; every other step is the literal
sequence of `Array.filter` calls of the source. -/
def applyFilters (dateLe : String → String → Bool) (f : Filters)
    (importedExpenses : List ImportedExpense) : List ImportedExpense :=
  let l0 := importedExpenses
  let l1 := if f.searchQuery ≠ "" then
    l0.filter (fun e =>
      containsSub e.description.toLower.data f.searchQuery.toLower.data)
    else l0
  let l2 := if f.filterCategory ≠ "" then
    l1.filter (fun e => e.category == some f.filterCategory) else l1
  let l3 := if f.filterType ≠ "" then
    l2.filter (fun e => e.expense_type == some f.filterType) else l2
  let l4 := if f.filterDateFrom ≠ "" then
    l3.filter (fun e => dateLe f.filterDateFrom e.date) else l3
  let l5 := if f.filterDateTo ≠ "" then
    l4.filter (fun e => dateLe e.date f.filterDateTo) else l4
  l5

/-- The field edits the review modal offers (ImportPage.tsx lines
627-695).  Each constructor is one `onChange` handler; the amount input
writes `owed_share: parseFloat(value) || 0`, whose parse result is
modelled as `Option` (`none` for `NaN`). -/
inductive Edit where
  | editDescription (v : String)
  | editAmount (v : Option ℚ)
  | editCurrency (v : String)
  | editDate (v : String)
  | editCategory (v : String)
  | editGroup (v : String)
deriving DecidableEq

/-- Apply a single modal edit to the current candidate: each handler
spreads `editingExpense` and overrides exactly one field. -/
def applyEdit (e : ImportedExpense) : Edit → ImportedExpense
  | Edit.editDescription v => { e with description := v }
  | Edit.editAmount v => { e with owed_share := some (jsOrOptQ v 0) }
  | Edit.editCurrency v => { e with currency := v }
  | Edit.editDate v => { e with date := v }
  | Edit.editCategory v => { e with category := some v }
  | Edit.editGroup v => { e with group_id := some v }

/-- A sequence of modal edits applied in order. -/
def applyEdits (e : ImportedExpense) (eds : List Edit) : ImportedExpense :=
  eds.foldl applyEdit e

/-- Outcome of the `POST /expenses` call inside `handleSaveExpense`:
either the store accepts the expense or the request rejects. -/
inductive SaveResult where
  | success
  | failure (msg : String)
deriving DecidableEq

/-- The component state of ImportPage.tsx that the review session
touches, plus two observables of the embedding: `persisted` records the
expenses the `POST /expenses` boundary accepted, in order, and
`notifications` counts the `onExpenseAdded()` callback invocations. -/
structure ReviewState where
  importedExpenses : List ImportedExpense
  selectedExpenses : List String
  expensesToConfirm : List ImportedExpense
  editingExpenseIndex : Nat
  editingExpense : Option ImportedExpense
  showEditModal : Bool
  message : String
  error : Option String
  persisted : List ExpenseData
  notifications : Nat
deriving DecidableEq

/-- The `handleSaveExpense` handler (ImportPage.tsx lines 180-227).
`r` is the outcome of the awaited `POST /expenses`; on failure the
`catch` block only sets the error message, on success the saved payload
is recorded and the session advances — to the next candidate when
`nextIndex < expensesToConfirm.length`, otherwise closing the modal,
resetting the session state and invoking `onExpenseAdded` when the
surrounding dashboard supplied it (`hasCallback`). -/
def handleSaveExpense (groups : List Group) (hasCallback : Bool)
    (r : SaveResult) (s : ReviewState) : ReviewState :=
  match s.editingExpense with
  | none => s
  | some e =>
    match r with
    | SaveResult.failure msg => { s with error := some msg }
    | SaveResult.success =>
      let saved := s.persisted ++ [expenseData groups e]
      let nextIndex := s.editingExpenseIndex + 1
      if nextIndex < s.expensesToConfirm.length then
        { s with
          persisted := saved
          editingExpenseIndex := nextIndex
          editingExpense := s.expensesToConfirm[nextIndex]? }
      else
        { s with
          persisted := saved
          showEditModal := false
          message := "Successfully added expense(s) to your expenses!"
          importedExpenses :=
            s.importedExpenses.filter (fun x => !s.selectedExpenses.contains x.id)
          selectedExpenses := []
          expensesToConfirm := []
          editingExpense := none
          editingExpenseIndex := 0
          notifications := s.notifications + (if hasCallback then 1 else 0) }

/-- The `handleSkipExpense` handler (ImportPage.tsx lines 229-243): no
network call, advance to the next candidate or close and reset the
session; the completion branch sets no message and invokes no callback. -/
def handleSkipExpense (s : ReviewState) : ReviewState :=
  let nextIndex := s.editingExpenseIndex + 1
  if nextIndex < s.expensesToConfirm.length then
    { s with
      editingExpenseIndex := nextIndex
      editingExpense := s.expensesToConfirm[nextIndex]? }
  else
    { s with
      showEditModal := false
      importedExpenses :=
        s.importedExpenses.filter (fun x => !s.selectedExpenses.contains x.id)
      selectedExpenses := []
      expensesToConfirm := []
      editingExpense := none
      editingExpenseIndex := 0 }

/-- One user action inside an open review session: press Save (with the
persistence outcome of the resulting POST) or press Skip. -/
inductive SessionOp where
  | save (r : SaveResult)
  | skip
deriving DecidableEq

/-- Apply one session action to the component state. -/
def sessionStep (groups : List Group) (hasCallback : Bool)
    (s : ReviewState) : SessionOp → ReviewState
  | SessionOp.save r => handleSaveExpense groups hasCallback r s
  | SessionOp.skip => handleSkipExpense s

/-- Run a review session: fold a list of user actions over the state. -/
def runSession (groups : List Group) (hasCallback : Bool)
    (s : ReviewState) (ops : List SessionOp) : ReviewState :=
  ops.foldl (sessionStep groups hasCallback) s

/-- A concrete new import candidate, used to instantiate the theorems
below on explicit inputs. -/
def sampleCandidate : ImportedExpense :=
  { id := "sw-2"
    description := "Dinner"
    amount := 42
    currency := "USD"
    date := "2024-01-05"
    category := some "Food"
    expense_type := some "borrowed"
    net_balance := none
    total_expense := some 84
    owed_share := some 42
    splitwise_id := some "sw-2"
    group_id := none
    paid_share := none
    already_imported := false }

/-- A second concrete new candidate. -/
def sampleCandidate2 : ImportedExpense :=
  { sampleCandidate with
    id := "sw-3"
    description := "Taxi"
    amount := 14
    owed_share := some 7
    splitwise_id := some "sw-3" }

/-- A concrete candidate the Dedup Filter flagged as already imported. -/
def importedDup : ImportedExpense :=
  { sampleCandidate with
    id := "sw-1"
    description := "Rent"
    splitwise_id := some "sw-1"
    already_imported := true }

/-- A concrete candidate whose `owed_share` is present and equal to 0
while its raw `amount` is 10. -/
def zeroShareCandidate : ImportedExpense :=
  { sampleCandidate with
    id := "sw-9"
    amount := 10
    owed_share := some 0
    splitwise_id := some "sw-9" }

/-- A concrete open review session over two selected candidates,
positioned at index 0. -/
def sampleSession : ReviewState :=
  { importedExpenses := [sampleCandidate, sampleCandidate2]
    selectedExpenses := ["sw-2", "sw-3"]
    expensesToConfirm := [sampleCandidate, sampleCandidate2]
    editingExpenseIndex := 0
    editingExpense := some sampleCandidate
    showEditModal := true
    message := ""
    error := none
    persisted := []
    notifications := 0 }

/-- A concrete open review session over a single selected candidate. -/
def soloSession : ReviewState :=
  { sampleSession with
    importedExpenses := [sampleCandidate]
    selectedExpenses := ["sw-2"]
    expensesToConfirm := [sampleCandidate] }

/-- The filter-panel state with every filter switched off (all guard
strings empty, as after Clear Filters). -/
def emptyFilters : Filters :=
  { searchQuery := ""
    filterCategory := ""
    filterType := ""
    filterDateFrom := ""
    filterDateTo := "" }

end ImportPage

namespace Dashboard

/-- A concrete stored expense whose optional `owed_share` field is
absent while its `amount` is 5. -/
def legacyExpense : Expense :=
  { id := "e1"
    description := "Old expense"
    amount := 5
    currency := "USD"
    date := "2024-01-01"
    category := none
    expense_type := some "lent"
    expense_title := none
    net_balance := none
    total_expense := none
    owed_share := none
    group_id := none
    group_name := none }

/-- A concrete stored expense carrying an `owed_share`. -/
def storedExpense : Expense :=
  { legacyExpense with
    id := "e2"
    description := "Groceries"
    amount := 30
    owed_share := some 30
    expense_type := some "borrowed" }

/-- A concrete income entry. -/
def sampleIncome : Income :=
  { id := "i1"
    description := "Salary"
    amount := 100
    currency := "USD"
    date := "2024-01-02"
    category := none
    source := some "Work" }

/-- A second concrete income entry. -/
def sampleIncome2 : Income :=
  { sampleIncome with id := "i2", description := "Bonus", amount := 25 }

end Dashboard

theorem jsOrQ_zero_right (a : ℚ) : jsOrQ a 0 = a := by
  unfold jsOrQ
  split <;> simp_all

theorem jsOrOptQ_eq_getD_zero (a : Option ℚ) : jsOrOptQ a 0 = a.getD 0 := by
  cases a <;> simp [jsOrOptQ, jsOrQ_zero_right, Option.getD]

theorem foldl_add_eq_sum_map {α : Type} (f : α → ℚ) (l : List α) (a : ℚ) :
    l.foldl (fun sum x => sum + f x) a = a + (l.map f).sum := by
  induction l generalizing a with
  | nil => simp
  | cons x xs ih => simp [List.foldl_cons, ih, add_assoc]

theorem totalIncome_eq_sum (income : List Dashboard.Income) :
    Dashboard.totalIncome income
      = (income.map (fun i => jsOrQ i.amount 0)).sum := by
  unfold Dashboard.totalIncome
  rw [foldl_add_eq_sum_map]
  ring

theorem youOwe_eq_sum (expenses : List Dashboard.Expense) :
    Dashboard.youOwe expenses
      = (expenses.map (fun e => e.owed_share.getD 0)).sum := by
  unfold Dashboard.youOwe
  rw [foldl_add_eq_sum_map]
  simp [jsOrOptQ_eq_getD_zero]

/-- C1 counterexample: on an expense whose `owed_share` field is absent
and whose `amount` is 5, the aggregator of Dashboard.tsx line 418
(`sum(e.owed_share || 0)`) yields 0, while the claimed total
(`sum(owed_share ?? amount)`, falling back to `amount`) yields 5, so the
claimed equation fails on this one-element expense list. -/
theorem C1_totalOwed_fallback_counterexample :
    Dashboard.youOwe [Dashboard.legacyExpense] = 0 ∧
    Dashboard.specTotalOwed [Dashboard.legacyExpense] = 5 ∧
    Dashboard.youOwe [Dashboard.legacyExpense]
      ≠ Dashboard.specTotalOwed [Dashboard.legacyExpense] := by
  refine ⟨?_, ?_, ?_⟩ <;>
    simp [Dashboard.youOwe, Dashboard.specTotalOwed, Dashboard.legacyExpense,
      jsOrOptQ]

/-- C1 (amended): for every list of persisted expenses, totalOwed equals
the sum over all expenses of `owed_share` when present and of 0 — not of
`amount` — when `owed_share` is absent; every expense contributes this
value regardless of its `expense_type` (lent items are not netted
against borrowed items: overriding every `expense_type` leaves the total
unchanged). -/
theorem C1_totalOwed_amended (expenses : List Dashboard.Expense) :
    Dashboard.youOwe expenses
      = (expenses.map (fun e => e.owed_share.getD 0)).sum ∧
    ∀ t : Option String,
      Dashboard.youOwe (expenses.map (fun e => { e with expense_type := t }))
        = Dashboard.youOwe expenses := by
  refine ⟨youOwe_eq_sum expenses, fun t => ?_⟩
  rw [youOwe_eq_sum, youOwe_eq_sum, List.map_map]
  rfl

/-- C8: the Balance Aggregator satisfies
`netBalance = totalIncome - totalOwed` exactly on every input, and on
empty expense and income lists all three figures are zero. -/
theorem C8_netBalance_and_empty (income : List Dashboard.Income)
    (expenses : List Dashboard.Expense) :
    Dashboard.netBalance income expenses
      = Dashboard.totalIncome income - Dashboard.youOwe expenses ∧
    Dashboard.totalIncome ([] : List Dashboard.Income) = 0 ∧
    Dashboard.youOwe ([] : List Dashboard.Expense) = 0 ∧
    Dashboard.netBalance [] [] = 0 := by
  refine ⟨rfl, rfl, rfl, ?_⟩
  simp [Dashboard.netBalance, Dashboard.totalIncome, Dashboard.youOwe]

/-- C9: the Balance Aggregator is order-independent — permuting the
expense list and the income list leaves totalIncome, totalOwed and
netBalance unchanged. -/
theorem C9_order_independent (expenses expenses2 : List Dashboard.Expense)
    (income income2 : List Dashboard.Income)
    (hp : List.Perm expenses expenses2)
    (hq : List.Perm income income2) :
    Dashboard.totalIncome income = Dashboard.totalIncome income2 ∧
    Dashboard.youOwe expenses = Dashboard.youOwe expenses2 ∧
    Dashboard.netBalance income expenses
      = Dashboard.netBalance income2 expenses2 := by
  have h1 : Dashboard.totalIncome income = Dashboard.totalIncome income2 := by
    rw [totalIncome_eq_sum, totalIncome_eq_sum]
    exact List.Perm.sum_eq (hq.map _)
  have h2 : Dashboard.youOwe expenses = Dashboard.youOwe expenses2 := by
    rw [youOwe_eq_sum, youOwe_eq_sum]
    exact List.Perm.sum_eq (hp.map _)
  exact ⟨h1, h2, by rw [Dashboard.netBalance, Dashboard.netBalance, h1, h2]⟩

/-- C9 witness: the order-independence theorem applied to concrete
two-element expense and income lists and their swaps. -/
theorem C9_order_independent_witness :
    Dashboard.totalIncome [Dashboard.sampleIncome, Dashboard.sampleIncome2]
      = Dashboard.totalIncome [Dashboard.sampleIncome2, Dashboard.sampleIncome] ∧
    Dashboard.youOwe [Dashboard.legacyExpense, Dashboard.storedExpense]
      = Dashboard.youOwe [Dashboard.storedExpense, Dashboard.legacyExpense] ∧
    Dashboard.netBalance [Dashboard.sampleIncome, Dashboard.sampleIncome2]
        [Dashboard.legacyExpense, Dashboard.storedExpense]
      = Dashboard.netBalance [Dashboard.sampleIncome2, Dashboard.sampleIncome]
        [Dashboard.storedExpense, Dashboard.legacyExpense] :=
  C9_order_independent
    [Dashboard.legacyExpense, Dashboard.storedExpense]
    [Dashboard.storedExpense, Dashboard.legacyExpense]
    [Dashboard.sampleIncome, Dashboard.sampleIncome2]
    [Dashboard.sampleIncome2, Dashboard.sampleIncome]
    (List.Perm.swap Dashboard.storedExpense Dashboard.legacyExpense [])
    (List.Perm.swap Dashboard.sampleIncome2 Dashboard.sampleIncome [])

open ImportPage

theorem applyEdit_splitwise_id (c : ImportedExpense) (ed : Edit) :
    (applyEdit c ed).splitwise_id = c.splitwise_id := by
  cases ed <;> rfl

theorem applyEdit_candidate_id (c : ImportedExpense) (ed : Edit) :
    (applyEdit c ed).id = c.id := by
  cases ed <;> rfl

theorem applyEdits_splitwise_id (c : ImportedExpense) (eds : List Edit) :
    (applyEdits c eds).splitwise_id = c.splitwise_id := by
  induction eds generalizing c with
  | nil => rfl
  | cons ed eds ih =>
    show (applyEdits (applyEdit c ed) eds).splitwise_id = c.splitwise_id
    rw [ih, applyEdit_splitwise_id]

theorem applyEdits_candidate_id (c : ImportedExpense) (eds : List Edit) :
    (applyEdits c eds).id = c.id := by
  induction eds generalizing c with
  | nil => rfl
  | cons ed eds ih =>
    show (applyEdits (applyEdit c ed) eds).id = c.id
    rw [ih, applyEdit_candidate_id]

/-- C5: no modal edit operation touches the external identifier — after
any sequence of edits the candidate keeps its original `splitwise_id`
and record `id`, and the expense persisted by save carries the original
candidate's external id (`splitwise_id || id`) unchanged. -/
theorem C5_external_id_preserved (groups : List Group)
    (c : ImportedExpense) (eds : List Edit) :
    (applyEdits c eds).splitwise_id = c.splitwise_id ∧
    (applyEdits c eds).id = c.id ∧
    (expenseData groups (applyEdits c eds)).splitwise_id
      = jsOrOptS c.splitwise_id c.id := by
  refine ⟨applyEdits_splitwise_id c eds, applyEdits_candidate_id c eds, ?_⟩
  show jsOrOptS (applyEdits c eds).splitwise_id (applyEdits c eds).id
      = jsOrOptS c.splitwise_id c.id
  rw [applyEdits_splitwise_id, applyEdits_candidate_id]

/-- C4 counterexample: a candidate whose `owed_share` is present and
equal to 0 with raw amount 10 is persisted with amount 10, not 0 — the
JavaScript `owed_share || amount || 0` treats the present zero as falsy
and falls back to the raw amount, so the fallback is not used only when
`owed_share` is absent. -/
theorem C4_zero_owed_share_counterexample :
    zeroShareCandidate.owed_share = some 0 ∧
    zeroShareCandidate.amount = 10 ∧
    (expenseData [] zeroShareCandidate).amount = 10 := by
  refine ⟨rfl, rfl, ?_⟩
  simp [expenseData, zeroShareCandidate, sampleCandidate, jsOrOptQ, jsOrQ]

/-- C4 (amended): on save, the persisted amount equals the candidate's
`owed_share` when it is present and nonzero; otherwise (absent, or
present but equal to 0) it falls back to the candidate's raw amount.  In
particular a candidate with `owed_share = 0` is persisted with its raw
amount, which is 0 only when that raw amount is itself 0. -/
theorem C4_amount_mapping_amended (groups : List Group)
    (c : ImportedExpense) :
    (expenseData groups c).amount =
      (match c.owed_share with
       | some v => if v = 0 then c.amount else v
       | none => c.amount) := by
  rcases hc : c.owed_share with _ | v
  · simp [expenseData, jsOrOptQ, hc, jsOrQ_zero_right]
  · by_cases hv : v = 0
    · simp only [expenseData, jsOrOptQ, jsOrQ, hc, hv, if_true, ite_self]
      split <;> simp_all
    · simp [expenseData, jsOrOptQ, jsOrQ, hc, hv, jsOrQ_zero_right]

/-- C2: save-and-advance at index i persists the current (possibly
edited) candidate as a new expense and then moves the session to index
i+1 when i+1 < N, and to the Complete state (modal closed, session
reset) when the subset is exhausted. -/
theorem C2_save_and_advance (groups : List Group) (hcb : Bool)
    (s : ReviewState) (e : ImportedExpense)
    (he : s.editingExpense = some e) :
    (handleSaveExpense groups hcb SaveResult.success s).persisted
        = s.persisted ++ [expenseData groups e] ∧
    (if s.editingExpenseIndex + 1 < s.expensesToConfirm.length then
        (handleSaveExpense groups hcb SaveResult.success s).editingExpenseIndex
            = s.editingExpenseIndex + 1 ∧
        (handleSaveExpense groups hcb SaveResult.success s).editingExpense
            = s.expensesToConfirm[s.editingExpenseIndex + 1]? ∧
        (handleSaveExpense groups hcb SaveResult.success s).expensesToConfirm
            = s.expensesToConfirm ∧
        (handleSaveExpense groups hcb SaveResult.success s).showEditModal
            = s.showEditModal
      else
        (handleSaveExpense groups hcb SaveResult.success s).showEditModal
            = false ∧
        (handleSaveExpense groups hcb SaveResult.success s).expensesToConfirm
            = [] ∧
        (handleSaveExpense groups hcb SaveResult.success s).editingExpense
            = none ∧
        (handleSaveExpense groups hcb SaveResult.success s).editingExpenseIndex
            = 0) := by
  simp only [handleSaveExpense, he]
  split <;> simp_all

/-- C2 witness: the save-and-advance theorem applied to a concrete
two-candidate session at index 0. -/
theorem C2_save_and_advance_witness :
    sampleSession.editingExpense = some sampleCandidate ∧
    ((handleSaveExpense [] true SaveResult.success sampleSession).persisted
        = sampleSession.persisted ++ [expenseData [] sampleCandidate] ∧
    (if sampleSession.editingExpenseIndex + 1
          < sampleSession.expensesToConfirm.length then
        (handleSaveExpense [] true SaveResult.success
            sampleSession).editingExpenseIndex
            = sampleSession.editingExpenseIndex + 1 ∧
        (handleSaveExpense [] true SaveResult.success
            sampleSession).editingExpense
            = sampleSession.expensesToConfirm[sampleSession.editingExpenseIndex + 1]? ∧
        (handleSaveExpense [] true SaveResult.success
            sampleSession).expensesToConfirm
            = sampleSession.expensesToConfirm ∧
        (handleSaveExpense [] true SaveResult.success
            sampleSession).showEditModal
            = sampleSession.showEditModal
      else
        (handleSaveExpense [] true SaveResult.success
            sampleSession).showEditModal = false ∧
        (handleSaveExpense [] true SaveResult.success
            sampleSession).expensesToConfirm = [] ∧
        (handleSaveExpense [] true SaveResult.success
            sampleSession).editingExpense = none ∧
        (handleSaveExpense [] true SaveResult.success
            sampleSession).editingExpenseIndex = 0)) :=
  ⟨rfl, C2_save_and_advance [] true sampleSession sampleCandidate rfl⟩

/-- C3: when persistence rejects the current candidate, the session
state is unchanged except for the reported error — same index, same
selected subset, same persisted expenses, modal still open — and a
subsequent successful retry behaves exactly like a first-try save
(apart from the lingering error message). -/
theorem C3_save_failure_stays_and_retries (groups : List Group)
    (hcb : Bool) (s : ReviewState) (e : ImportedExpense) (m : String)
    (he : s.editingExpense = some e) :
    handleSaveExpense groups hcb (SaveResult.failure m) s
        = { s with error := some m } ∧
    handleSaveExpense groups hcb SaveResult.success { s with error := some m }
        = { handleSaveExpense groups hcb SaveResult.success s with
            error := some m } := by
  constructor
  · simp [handleSaveExpense, he]
  · simp only [handleSaveExpense, he]
    split <;> rfl

/-- C3 witness: the failure-then-retry theorem applied to a concrete
two-candidate session at index 0 with a concrete rejection message. -/
theorem C3_save_failure_stays_and_retries_witness :
    sampleSession.editingExpense = some sampleCandidate ∧
    (handleSaveExpense [] true (SaveResult.failure "rejected") sampleSession
        = { sampleSession with error := some "rejected" } ∧
    handleSaveExpense [] true SaveResult.success
        { sampleSession with error := some "rejected" }
        = { handleSaveExpense [] true SaveResult.success sampleSession with
            error := some "rejected" }) :=
  ⟨rfl, C3_save_failure_stays_and_retries [] true sampleSession
    sampleCandidate "rejected" rfl⟩

/-- C6: skip-and-advance persists nothing — the persisted expense list
and the notification count are untouched — while the session position
(index, current candidate, remaining subset, modal visibility, and the
cleanup of the imported list) advances exactly as a successful save
does. -/
theorem C6_skip_frame (groups : List Group) (s : ReviewState)
    (e : ImportedExpense) (he : s.editingExpense = some e) :
    (handleSkipExpense s).persisted = s.persisted ∧
    (handleSkipExpense s).notifications = s.notifications ∧
    (handleSkipExpense s).editingExpenseIndex
      = (handleSaveExpense groups true SaveResult.success s).editingExpenseIndex ∧
    (handleSkipExpense s).editingExpense
      = (handleSaveExpense groups true SaveResult.success s).editingExpense ∧
    (handleSkipExpense s).expensesToConfirm
      = (handleSaveExpense groups true SaveResult.success s).expensesToConfirm ∧
    (handleSkipExpense s).showEditModal
      = (handleSaveExpense groups true SaveResult.success s).showEditModal ∧
    (handleSkipExpense s).importedExpenses
      = (handleSaveExpense groups true SaveResult.success s).importedExpenses := by
  simp only [handleSkipExpense, handleSaveExpense, he]
  split <;> simp_all

/-- C6 witness: the skip frame theorem applied to a concrete
two-candidate session at index 0. -/
theorem C6_skip_frame_witness :
    sampleSession.editingExpense = some sampleCandidate ∧
    ((handleSkipExpense sampleSession).persisted = sampleSession.persisted ∧
    (handleSkipExpense sampleSession).notifications
      = sampleSession.notifications ∧
    (handleSkipExpense sampleSession).editingExpenseIndex
      = (handleSaveExpense [] true SaveResult.success
          sampleSession).editingExpenseIndex ∧
    (handleSkipExpense sampleSession).editingExpense
      = (handleSaveExpense [] true SaveResult.success
          sampleSession).editingExpense ∧
    (handleSkipExpense sampleSession).expensesToConfirm
      = (handleSaveExpense [] true SaveResult.success
          sampleSession).expensesToConfirm ∧
    (handleSkipExpense sampleSession).showEditModal
      = (handleSaveExpense [] true SaveResult.success
          sampleSession).showEditModal ∧
    (handleSkipExpense sampleSession).importedExpenses
      = (handleSaveExpense [] true SaveResult.success
          sampleSession).importedExpenses) :=
  ⟨rfl, C6_skip_frame [] sampleSession sampleCandidate rfl⟩

/-- C7 counterexample: a session over a single selected candidate whose
only action is Skip reaches the Complete state (modal closed, subset
exhausted, session reset) yet the dashboard-refresh callback count is
unchanged — zero notifications instead of the claimed exactly one. -/
theorem C7_skip_completion_counterexample :
    soloSession.showEditModal = true ∧
    soloSession.notifications = 0 ∧
    (runSession [] true soloSession [SessionOp.skip]).showEditModal = false ∧
    (runSession [] true soloSession [SessionOp.skip]).expensesToConfirm = [] ∧
    (runSession [] true soloSession [SessionOp.skip]).editingExpense = none ∧
    (runSession [] true soloSession [SessionOp.skip]).notifications = 0 := by
  refine ⟨rfl, rfl, ?_, ?_, ?_, ?_⟩ <;>
    simp [runSession, sessionStep, handleSkipExpense, soloSession,
      sampleSession]

/-- C7 (amended): the dashboard-refresh notification is emitted exactly
at a session-completing successful save (when the surrounding dashboard
supplied the callback): a skip never notifies, a failed save never
notifies, and a successful save notifies once when it exhausts the
subset and not otherwise. -/
theorem C7_notification_on_final_save (groups : List Group)
    (s : ReviewState) (e : ImportedExpense) (m : String)
    (he : s.editingExpense = some e) :
    (handleSkipExpense s).notifications = s.notifications ∧
    (handleSaveExpense groups true (SaveResult.failure m) s).notifications
      = s.notifications ∧
    (handleSaveExpense groups true SaveResult.success s).notifications
      = (if s.editingExpenseIndex + 1 < s.expensesToConfirm.length then
          s.notifications else s.notifications + 1) := by
  refine ⟨?_, ?_, ?_⟩
  · simp only [handleSkipExpense]
    split <;> rfl
  · simp [handleSaveExpense, he]
  · simp only [handleSaveExpense, he]
    split <;> simp_all

/-- C7 amended witness: the notification-accounting theorem applied to
a concrete two-candidate session at index 0. -/
theorem C7_notification_on_final_save_witness :
    sampleSession.editingExpense = some sampleCandidate ∧
    ((handleSkipExpense sampleSession).notifications
        = sampleSession.notifications ∧
    (handleSaveExpense [] true (SaveResult.failure "rejected")
        sampleSession).notifications = sampleSession.notifications ∧
    (handleSaveExpense [] true SaveResult.success
        sampleSession).notifications
      = (if sampleSession.editingExpenseIndex + 1
            < sampleSession.expensesToConfirm.length then
          sampleSession.notifications else sampleSession.notifications + 1)) :=
  ⟨rfl, C7_notification_on_final_save [] sampleSession sampleCandidate
    "rejected" rfl⟩

theorem applyFilters_mem (dateLe : String → String → Bool) (f : Filters)
    (l : List ImportedExpense) (e : ImportedExpense)
    (he : e ∈ applyFilters dateLe f l) : e ∈ l := by
  unfold applyFilters at he
  split_ifs at he <;> simp_all [List.mem_filter]

/-- C10: after an import fetch, every candidate of the displayed,
selectable list (the filter pipeline applied to the stored import
result) has `already_imported = false` — candidates flagged as already
imported were excluded by the caller before display. -/
theorem C10_presented_not_already_imported
    (dateLe : String → String → Bool) (f : Filters)
    (respExpenses : List ImportedExpense) (e : ImportedExpense)
    (he : e ∈ applyFilters dateLe f (handleImportExpenses respExpenses)) :
    e.already_imported = false := by
  have h1 : e ∈ handleImportExpenses respExpenses :=
    applyFilters_mem dateLe f _ e he
  unfold handleImportExpenses at h1
  simp [List.mem_filter] at h1
  simpa using h1.2

/-- C10 witness: the theorem applied to a concrete import response
holding one already-imported record and one new record, with all display
filters off. -/
theorem C10_presented_not_already_imported_witness :
    sampleCandidate ∈ applyFilters (fun _ _ => true) emptyFilters
      (handleImportExpenses [importedDup, sampleCandidate]) ∧
    sampleCandidate.already_imported = false :=
  have hm : sampleCandidate ∈ applyFilters (fun _ _ => true) emptyFilters
      (handleImportExpenses [importedDup, sampleCandidate]) := by
    simp [applyFilters, handleImportExpenses, emptyFilters, importedDup,
      sampleCandidate]
  ⟨hm, C10_presented_not_already_imported (fun _ _ => true) emptyFilters
    [importedDup, sampleCandidate] sampleCandidate hm⟩

end MyKaasu
